import Mathlib

/-!
Shallow embedding of `retry-async` (`src/retry_async/api.py`).

The heart of the library is a single retry loop, duplicated verbatim for the
synchronous and asynchronous execution modes (`__retry_internal_sync`,
`__retry_internal_async`).  Both loops share the same attempt/delay
arithmetic; only the invocation and sleep primitives differ in the source
text (and, notably, the async path also calls the blocking `time.sleep`).

Modelling choices:
  * The operation `f` is modelled as `op : Nat → Except ε α`, giving the
    outcome of its `n`-th invocation (0-indexed): `Except.ok v` for a normal
    return, `Except.error e` for a raised exception.
  * The `except exceptions as e` clause is modelled by a predicate
    `retryable : ε → Bool` (`isinstance(e, exceptions)`); exceptions it does
    not match escape the `try` unmodified.
  * Python floats for `delay`, `max_delay`, `backoff`, `jitter` are modelled
    as `Rat` (the claims only involve exact arithmetic).
  * `random.uniform(*jitter)` is modelled by an oracle `samples : Nat → Rat`
    consulted on the update after attempt `n` when the jitter is a range.
  * The logger is modelled as `Option (Nat → Option ε)`: `none` is
    `logger=None` (logging disabled); `some lg` is a logger whose `warning`
    call after attempt `n` either returns (`lg n = none`) or itself raises
    `e'` (`lg n = some e'`), in which case the exception propagates out of
    the loop exactly as in the source (the call is not guarded).
  * The `while _tries:` loop need not terminate (`tries = -1` with an
    always-failing operation), so execution takes a fuel argument; `none`
    means the fuel was exhausted before the loop finished.
  * A run is summarised by a `RunTrace`: how many times the operation was
    invoked, the logger calls `(exception, delay-argument)` in order, the
    sleeps `(primitive, duration)` in order, and the outcome.
-/

namespace RetryAsync

/-- Which sleep primitive a wait uses: `time.sleep` blocks the calling
thread; an awaited `asyncio.sleep` would suspend the calling task. -/
inductive SleepPrimitive where
  | blocking
  | suspending
deriving DecidableEq, Repr

/-- The `jitter` parameter: a fixed number, or a `(min, max)` range tuple
from which `random.uniform` draws. -/
inductive Jitter where
  | fixed (j : Rat)
  | range (lo hi : Rat)
deriving DecidableEq, Repr

/-- How one call of the retry internal ends: a value returned by `f`, the
implicit `None` returned when the `while` loop is never entered, or a
raised exception. -/
inductive Outcome (α ε : Type) where
  | returned (v : α)
  | returnedNone
  | raised (e : ε)
deriving DecidableEq, Repr

/-- Observable trace of one run of the retry internal. -/
structure RunTrace (α ε : Type) where
  invocations : Nat
  logCalls : List (ε × Rat)
  sleeps : List (SleepPrimitive × Rat)
  outcome : Outcome α ε
deriving DecidableEq, Repr

/-- The jitter term added on the update after attempt `n`:
`random.uniform(*jitter)` if `jitter` is a tuple, else `jitter` itself. -/
def jitterValue (jitter : Jitter) (samples : Nat → Rat) (n : Nat) : Rat :=
  match jitter with
  | .fixed j => j
  | .range _ _ => samples n

/-- The post-sleep delay update of the source loop:
`_delay *= backoff`, `_delay += <jitter term>`, and if `max_delay` is not
`None`, `_delay = min(_delay, max_delay)`. -/
def updateDelay (delay backoff : Rat) (jitter : Jitter) (samples : Nat → Rat)
    (n : Nat) (max_delay : Option Rat) : Rat :=
  let d := delay * backoff + jitterValue jitter samples n
  match max_delay with
  | none => d
  | some m => min d m

/-- The shared `while _tries:` loop of `__retry_internal_sync` and
`__retry_internal_async` (api.py lines 40-61 and 89-110), parameterised by
the sleep primitive the path uses.  State: `n` is the index of the next
invocation, `tries` is `_tries`, `delay` is `_delay`. -/
def retryLoop (op : Nat → Except ε α) (retryable : ε → Bool)
    (max_delay : Option Rat) (backoff : Rat) (jitter : Jitter)
    (samples : Nat → Rat) (logger : Option (Nat → Option ε))
    (prim : SleepPrimitive) :
    Nat → Nat → Int → Rat → Option (RunTrace α ε)
  | 0, _, _, _ => none
  | fuel + 1, n, tries, delay =>
    if tries = 0 then
      some ⟨0, [], [], Outcome.returnedNone⟩
    else
      match op n with
      | Except.ok v => some ⟨1, [], [], Outcome.returned v⟩
      | Except.error e =>
        if retryable e then
          if tries - 1 = 0 then
            some ⟨1, [], [], Outcome.raised e⟩
          else
            match logger with
            | some lg =>
              match lg n with
              | some le => some ⟨1, [(e, delay)], [], Outcome.raised le⟩
              | none =>
                (retryLoop op retryable max_delay backoff jitter samples
                    logger prim fuel (n + 1) (tries - 1)
                    (updateDelay delay backoff jitter samples n max_delay)).map
                  fun t =>
                    ⟨t.invocations + 1, (e, delay) :: t.logCalls,
                      (prim, delay) :: t.sleeps, t.outcome⟩
            | none =>
              (retryLoop op retryable max_delay backoff jitter samples
                  logger prim fuel (n + 1) (tries - 1)
                  (updateDelay delay backoff jitter samples n max_delay)).map
                fun t =>
                  ⟨t.invocations + 1, t.logCalls,
                    (prim, delay) :: t.sleeps, t.outcome⟩
        else some ⟨1, [], [], Outcome.raised e⟩

/-- `__retry_internal_sync` (api.py lines 15-61): the loop started at
`_tries, _delay = tries, delay`, waiting via the blocking `time.sleep`
(line 52). -/
def retryInternalSync (op : Nat → Except ε α) (retryable : ε → Bool)
    (tries : Int) (delay : Rat) (max_delay : Option Rat) (backoff : Rat)
    (jitter : Jitter) (samples : Nat → Rat)
    (logger : Option (Nat → Option ε)) (fuel : Nat) :
    Option (RunTrace α ε) :=
  retryLoop op retryable max_delay backoff jitter samples logger
    SleepPrimitive.blocking fuel 0 tries delay

/-- `__retry_internal_async` (api.py lines 64-110): the identical loop; its
wait also calls the blocking `time.sleep` (line 101), not an awaited
`asyncio.sleep`. -/
def retryInternalAsync (op : Nat → Except ε α) (retryable : ε → Bool)
    (tries : Int) (delay : Rat) (max_delay : Option Rat) (backoff : Rat)
    (jitter : Jitter) (samples : Nat → Rat)
    (logger : Option (Nat → Option ε)) (fuel : Nat) :
    Option (RunTrace α ε) :=
  retryLoop op retryable max_delay backoff jitter samples logger
    SleepPrimitive.blocking fuel 0 tries delay

/-- `retry_call_sync` (api.py lines 183-223): binds the arguments into a
zero-argument callable (absorbed into `op` here) and delegates to
`__retry_internal_sync` with the parameters unchanged; no validation. -/
def retry_call_sync (op : Nat → Except ε α) (retryable : ε → Bool)
    (tries : Int) (delay : Rat) (max_delay : Option Rat) (backoff : Rat)
    (jitter : Jitter) (samples : Nat → Rat)
    (logger : Option (Nat → Option ε)) (fuel : Nat) :
    Option (RunTrace α ε) :=
  retryInternalSync op retryable tries delay max_delay backoff jitter
    samples logger fuel

/-- `retry_call_async` (api.py lines 226-266): same delegation to
`__retry_internal_async`; no validation. -/
def retry_call_async (op : Nat → Except ε α) (retryable : ε → Bool)
    (tries : Int) (delay : Rat) (max_delay : Option Rat) (backoff : Rat)
    (jitter : Jitter) (samples : Nat → Rat)
    (logger : Option (Nat → Option ε)) (fuel : Nat) :
    Option (RunTrace α ε) :=
  retryInternalAsync op retryable tries delay max_delay backoff jitter
    samples logger fuel

/-- `retry` (api.py lines 116-180): returns a decorator closing over the
parameters; applying the decorated function runs the internal loop on the
bound operation.  The construction itself performs no parameter check. -/
def retry (is_async : Bool) (retryable : ε → Bool)
    (tries : Int) (delay : Rat) (max_delay : Option Rat) (backoff : Rat)
    (jitter : Jitter) (samples : Nat → Rat)
    (logger : Option (Nat → Option ε)) :
    (Nat → Except ε α) → Nat → Option (RunTrace α ε) :=
  fun op fuel =>
    if is_async then
      retryInternalAsync op retryable tries delay max_delay backoff jitter
        samples logger fuel
    else
      retryInternalSync op retryable tries delay max_delay backoff jitter
        samples logger fuel

/-- A logger that never itself raises (`logger=None` counts). -/
def loggerOk (logger : Option (Nat → Option ε)) : Prop :=
  match logger with
  | none => True
  | some lg => ∀ n, lg n = none

/-- A jitter range tuple with `min > max` (the inverted range the spec
wants rejected). -/
def invertedJitter (jitter : Jitter) : Prop :=
  match jitter with
  | .fixed _ => False
  | .range lo hi => hi < lo

/-- The delay after `steps` successive post-sleep updates, starting at
attempt index `n` with delay `d`. -/
def delayIter (backoff : Rat) (jitter : Jitter) (samples : Nat → Rat)
    (max_delay : Option Rat) : Nat → Rat → Nat → Rat
  | _, d, 0 => d
  | n, d, steps + 1 =>
      delayIter backoff jitter samples max_delay (n + 1)
        (updateDelay d backoff jitter samples n max_delay) steps

/-- Logger-call records are produced only when a logger is set. -/
def logWhen (logger : Option (Nat → Option ε)) (l : List (ε × Rat)) :
    List (ε × Rat) :=
  match logger with
  | none => []
  | some _ => l

/-- Prepend a logger-call record only when a logger is set. -/
def logCons (logger : Option (Nat → Option ε)) (p : ε × Rat)
    (l : List (ε × Rat)) : List (ε × Rat) :=
  match logger with
  | none => l
  | some _ => p :: l

theorem logCons_logWhen (logger : Option (Nat → Option ε)) (p : ε × Rat)
    (l : List (ε × Rat)) :
    logCons logger p (logWhen logger l) = logWhen logger (p :: l) := by
  cases logger <;> rfl

/-- Unfolding: with `_tries = 0` the `while` loop is never entered and the
function returns `None`. -/
theorem retryLoop_zero (op : Nat → Except ε α) (retryable : ε → Bool)
    (max_delay : Option Rat) (backoff : Rat) (jitter : Jitter)
    (samples : Nat → Rat) (logger : Option (Nat → Option ε))
    (prim : SleepPrimitive) (fuel n : Nat) (delay : Rat) :
    retryLoop op retryable max_delay backoff jitter samples logger prim
      (fuel + 1) n 0 delay = some ⟨0, [], [], Outcome.returnedNone⟩ := by
  simp [retryLoop]

/-- Unfolding: a successful invocation returns its value at once. -/
theorem retryLoop_success (op : Nat → Except ε α) (retryable : ε → Bool)
    (max_delay : Option Rat) (backoff : Rat) (jitter : Jitter)
    (samples : Nat → Rat) (logger : Option (Nat → Option ε))
    (prim : SleepPrimitive) (fuel n : Nat) (tries : Int) (delay : Rat)
    (v : α) (h0 : tries ≠ 0) (hop : op n = Except.ok v) :
    retryLoop op retryable max_delay backoff jitter samples logger prim
      (fuel + 1) n tries delay = some ⟨1, [], [], Outcome.returned v⟩ := by
  simp [retryLoop, h0, hop]

/-- Unfolding: an exception the `except` clause does not match escapes the
loop unmodified, with no logger call and no sleep. -/
theorem retryLoop_fatal (op : Nat → Except ε α) (retryable : ε → Bool)
    (max_delay : Option Rat) (backoff : Rat) (jitter : Jitter)
    (samples : Nat → Rat) (logger : Option (Nat → Option ε))
    (prim : SleepPrimitive) (fuel n : Nat) (tries : Int) (delay : Rat)
    (e : ε) (h0 : tries ≠ 0) (hop : op n = Except.error e)
    (hret : retryable e = false) :
    retryLoop op retryable max_delay backoff jitter samples logger prim
      (fuel + 1) n tries delay = some ⟨1, [], [], Outcome.raised e⟩ := by
  simp [retryLoop, h0, hop, hret]

/-- Unfolding: a caught exception that consumes the last attempt is
re-raised (`if not _tries: raise`), with no logger call and no sleep. -/
theorem retryLoop_exhaust (op : Nat → Except ε α) (retryable : ε → Bool)
    (max_delay : Option Rat) (backoff : Rat) (jitter : Jitter)
    (samples : Nat → Rat) (logger : Option (Nat → Option ε))
    (prim : SleepPrimitive) (fuel n : Nat) (tries : Int) (delay : Rat)
    (e : ε) (h0 : tries ≠ 0) (hop : op n = Except.error e)
    (hret : retryable e = true) (hlast : tries - 1 = 0) :
    retryLoop op retryable max_delay backoff jitter samples logger prim
      (fuel + 1) n tries delay = some ⟨1, [], [], Outcome.raised e⟩ := by
  simp [retryLoop, h0, hop, hret, hlast]

/-- Unfolding: if the logger's `warning` call itself raises, that exception
propagates immediately: the loop records the logger call, performs no
sleep, and ends raising the logger's exception. -/
theorem retryLoop_logger_raises (op : Nat → Except ε α)
    (retryable : ε → Bool) (max_delay : Option Rat) (backoff : Rat)
    (jitter : Jitter) (samples : Nat → Rat) (lg : Nat → Option ε)
    (prim : SleepPrimitive) (fuel n : Nat) (tries : Int) (delay : Rat)
    (e le : ε) (h0 : tries ≠ 0) (hop : op n = Except.error e)
    (hret : retryable e = true) (hrem : tries - 1 ≠ 0)
    (hlg : lg n = some le) :
    retryLoop op retryable max_delay backoff jitter samples (some lg) prim
      (fuel + 1) n tries delay =
      some ⟨1, [(e, delay)], [], Outcome.raised le⟩ := by
  simp [retryLoop, h0, hop, hret, hrem, hlg]

/-- Unfolding: a caught exception with attempts left logs once (when a
logger is set and does not raise), sleeps the current delay, updates the
delay, and continues. -/
theorem retryLoop_retry_step (op : Nat → Except ε α) (retryable : ε → Bool)
    (max_delay : Option Rat) (backoff : Rat) (jitter : Jitter)
    (samples : Nat → Rat) (logger : Option (Nat → Option ε))
    (prim : SleepPrimitive) (fuel n : Nat) (tries : Int) (delay : Rat)
    (e : ε) (h0 : tries ≠ 0) (hop : op n = Except.error e)
    (hret : retryable e = true) (hrem : tries - 1 ≠ 0)
    (hlg : ∀ lg, logger = some lg → lg n = none) :
    retryLoop op retryable max_delay backoff jitter samples logger prim
      (fuel + 1) n tries delay =
      (retryLoop op retryable max_delay backoff jitter samples logger prim
          fuel (n + 1) (tries - 1)
          (updateDelay delay backoff jitter samples n max_delay)).map
        fun t =>
          ⟨t.invocations + 1, logCons logger (e, delay) t.logCalls,
            (prim, delay) :: t.sleeps, t.outcome⟩ := by
  cases logger with
  | none => simp [retryLoop, h0, hop, hret, hrem, logCons]
  | some lg =>
    have hn : lg n = none := hlg lg rfl
    simp [retryLoop, h0, hop, hret, hrem, hn, logCons]

/-- A never-raising logger never raises at any particular call. -/
theorem loggerOk_at {logger : Option (Nat → Option ε)}
    (hlg : loggerOk logger) (n : Nat) :
    ∀ lg, logger = some lg → lg n = none := by
  intro lg h
  subst h
  exact hlg n

/-- Full characterisation of a run in which every invocation raises a
caught (retryable) exception and the logger never raises, with a finite
attempt budget `k + 1`: the operation runs `k + 1` times, the logger (when
set) is called once per non-final failure with the delay about to be
waited, the sleeps are the successive delays, and the exception of the
last attempt is re-raised. -/
theorem range_map_succ {β : Type} (g : Nat → β) (k : Nat) :
    (List.range (k + 1)).map g = g 0 :: ((List.range k).map fun i => g (i + 1)) := by
  rw [List.range_succ_eq_map, List.map_cons, List.map_map]
  rfl

theorem delayIter_succ (backoff : Rat) (jitter : Jitter)
    (samples : Nat → Rat) (max_delay : Option Rat) (n : Nat) (d : Rat)
    (i : Nat) :
    delayIter backoff jitter samples max_delay n d (i + 1) =
    delayIter backoff jitter samples max_delay (n + 1)
      (updateDelay d backoff jitter samples n max_delay) i := rfl

theorem retryLoop_always_fail (op : Nat → Except ε α) (retryable : ε → Bool)
    (max_delay : Option Rat) (backoff : Rat) (jitter : Jitter)
    (samples : Nat → Rat) (logger : Option (Nat → Option ε))
    (prim : SleepPrimitive) (errs : Nat → ε)
    (hop : ∀ n, op n = Except.error (errs n))
    (hret : ∀ n, retryable (errs n) = true)
    (hlg : loggerOk logger) :
    ∀ k n d,
      retryLoop op retryable max_delay backoff jitter samples logger prim
        (k + 1) n ((k : Int) + 1) d =
      some ⟨k + 1,
        logWhen logger ((List.range k).map fun i =>
          (errs (n + i), delayIter backoff jitter samples max_delay n d i)),
        (List.range k).map fun i =>
          (prim, delayIter backoff jitter samples max_delay n d i),
        Outcome.raised (errs (n + k))⟩ := by
  intro k
  induction k with
  | zero =>
    intro n d
    have h := retryLoop_exhaust op retryable max_delay backoff jitter samples
      logger prim 0 n (((0 : Nat) : Int) + 1) d (errs n) (by simp) (hop n)
      (hret n) (by simp)
    rw [h]
    cases logger <;> simp [logWhen]
  | succ k ih =>
    intro n d
    have h0 : ((k + 1 : Nat) : Int) + 1 ≠ 0 := by
      push_cast
      omega
    have hrem : ((k + 1 : Nat) : Int) + 1 - 1 ≠ 0 := by
      push_cast
      omega
    rw [retryLoop_retry_step op retryable max_delay backoff jitter samples
      logger prim (k + 1) n (((k + 1 : Nat) : Int) + 1) d (errs n) h0
      (hop n) (hret n) hrem (loggerOk_at hlg n)]
    have hcast : ((k + 1 : Nat) : Int) + 1 - 1 = ((k : Nat) : Int) + 1 := by
      push_cast
      ring
    rw [hcast, ih (n + 1) (updateDelay d backoff jitter samples n max_delay),
      Option.map_some']
    have hlogs : ((errs n, d) :: ((List.range k).map fun i =>
        (errs (n + 1 + i), delayIter backoff jitter samples max_delay (n + 1)
          (updateDelay d backoff jitter samples n max_delay) i))) =
        (List.range (k + 1)).map fun i =>
          (errs (n + i), delayIter backoff jitter samples max_delay n d i) := by
      rw [range_map_succ]
      congr 1
      apply List.map_congr_left
      intro i _
      rw [← delayIter_succ]
      have : n + 1 + i = n + (i + 1) := by omega
      rw [this]
    have hsleeps : ((prim, d) :: ((List.range k).map fun i =>
        (prim, delayIter backoff jitter samples max_delay (n + 1)
          (updateDelay d backoff jitter samples n max_delay) i))) =
        (List.range (k + 1)).map fun i =>
          (prim, delayIter backoff jitter samples max_delay n d i) := by
      rw [range_map_succ]
      congr 1
    rw [logCons_logWhen, hlogs, hsleeps]
    have : n + 1 + k = n + (k + 1) := by omega
    rw [this]

/-- With jitter `0` and no `max_delay`, the delay evolves as a pure
geometric progression `d * backoff ^ i`. -/
theorem delayIter_geometric (backoff : Rat) (samples : Nat → Rat) :
    ∀ i n (d : Rat),
      delayIter backoff (Jitter.fixed 0) samples none n d i =
        d * backoff ^ i := by
  intro i
  induction i with
  | zero =>
    intro n d
    simp [delayIter]
  | succ i ih =>
    intro n d
    rw [delayIter_succ, ih]
    simp only [updateDelay, jitterValue]
    ring

/-- With jitter `0`, `max_delay = d`, starting delay `d ≥ 0` and
`backoff ≥ 1`, the delay is pinned at `d` forever: each update computes
`d * backoff ≥ d` and the clamp brings it back to `d`. -/
theorem delayIter_capped (backoff : Rat) (samples : Nat → Rat) (d : Rat)
    (hd : 0 ≤ d) (hb : 1 ≤ backoff) :
    ∀ i n,
      delayIter backoff (Jitter.fixed 0) samples (some d) n d i = d := by
  intro i
  induction i with
  | zero =>
    intro n
    rfl
  | succ i ih =>
    intro n
    have hupd : updateDelay d backoff (Jitter.fixed 0) samples n (some d) = d := by
      simp only [updateDelay, jitterValue, add_zero]
      exact min_eq_right (le_mul_of_one_le_right hd hb)
    rw [delayIter_succ, hupd, ih]

/-- Sum of a function mapped over `List.range` equals the `Finset.range`
sum. -/
theorem list_range_map_sum (f : Nat → Rat) :
    ∀ k, ((List.range k).map f).sum = ∑ i ∈ Finset.range k, f i := by
  intro k
  induction k with
  | zero => simp
  | succ k ih =>
    rw [List.range_succ, List.map_append, List.sum_append,
      Finset.sum_range_succ, ih]
    simp

/-- A run with a negative (unbounded) attempt budget in which the first
`j` invocations raise caught exceptions and the `j`-th succeeds: it
returns the success value after exactly `j + 1` invocations. -/
theorem retryLoop_neg_eventually_succeeds (op : Nat → Except ε α)
    (retryable : ε → Bool) (max_delay : Option Rat) (backoff : Rat)
    (jitter : Jitter) (samples : Nat → Rat)
    (logger : Option (Nat → Option ε)) (prim : SleepPrimitive)
    (errs : Nat → ε) (v : α) (hlg : loggerOk logger) :
    ∀ j n (tries : Int) (d : Rat), tries < 0 →
      (∀ i, i < j → op (n + i) = Except.error (errs (n + i))) →
      (∀ i, i < j → retryable (errs (n + i)) = true) →
      op (n + j) = Except.ok v →
      ∃ t,
        retryLoop op retryable max_delay backoff jitter samples logger prim
          (j + 1) n tries d = some t ∧
        t.invocations = j + 1 ∧ t.outcome = Outcome.returned v := by
  intro j
  induction j with
  | zero =>
    intro n tries d htr hopf hretf hsucc
    refine ⟨_, retryLoop_success op retryable max_delay backoff jitter
      samples logger prim 0 n tries d v (by omega) (by simpa using hsucc),
      rfl, rfl⟩
  | succ j ih =>
    intro n tries d htr hopf hretf hsucc
    have h0 : tries ≠ 0 := by omega
    have hrem : tries - 1 ≠ 0 := by omega
    rw [retryLoop_retry_step op retryable max_delay backoff jitter samples
      logger prim (j + 1) n tries d (errs n) h0
      (by simpa using hopf 0 (by omega)) (by simpa using hretf 0 (by omega))
      hrem (loggerOk_at hlg n)]
    obtain ⟨t, ht, hinv, hout⟩ := ih (n + 1) (tries - 1)
      (updateDelay d backoff jitter samples n max_delay) (by omega)
      (fun i hi => by
        have h := hopf (i + 1) (by omega)
        rwa [show n + (i + 1) = n + 1 + i by omega] at h)
      (fun i hi => by
        have h := hretf (i + 1) (by omega)
        rwa [show n + (i + 1) = n + 1 + i by omega] at h)
      (by
        have h := hsucc
        rwa [show n + (j + 1) = n + 1 + j by omega] at h)
    refine ⟨_, by rw [ht]; rfl, ?_, ?_⟩
    · simp [hinv]
    · simpa using hout

/-- C1: with finite `tries = N ≥ 1` and an operation that raises a caught
(retryable) exception on every invocation (and a logger that does not
itself raise), both the sync and the async retry internals invoke the
operation exactly `N` times and end by re-raising precisely the exception
of the `N`-th invocation, unwrapped. -/
theorem exhaustion_invokes_N_and_raises_last (op : Nat → Except ε α)
    (retryable : ε → Bool) (delay : Rat) (max_delay : Option Rat)
    (backoff : Rat) (jitter : Jitter) (samples : Nat → Rat)
    (logger : Option (Nat → Option ε)) (errs : Nat → ε) (N : Nat)
    (hN : 1 ≤ N)
    (hop : ∀ n, op n = Except.error (errs n))
    (hret : ∀ n, retryable (errs n) = true)
    (hlg : loggerOk logger) :
    (retryInternalSync op retryable (N : Int) delay max_delay backoff jitter
        samples logger N).map (fun t => (t.invocations, t.outcome)) =
      some (N, Outcome.raised (errs (N - 1))) ∧
    (retryInternalAsync op retryable (N : Int) delay max_delay backoff jitter
        samples logger N).map (fun t => (t.invocations, t.outcome)) =
      some (N, Outcome.raised (errs (N - 1))) := by
  obtain ⟨k, rfl⟩ : ∃ k, N = k + 1 := ⟨N - 1, by omega⟩
  have hc : ((k + 1 : Nat) : Int) = (k : Int) + 1 := by
    push_cast
    ring
  have main : ∀ prim,
      (retryLoop op retryable max_delay backoff jitter samples logger prim
          (k + 1) 0 ((k : Int) + 1) delay).map
        (fun t => (t.invocations, t.outcome)) =
      some (k + 1, Outcome.raised (errs k)) := by
    intro prim
    rw [retryLoop_always_fail op retryable max_delay backoff jitter samples
      logger prim errs hop hret hlg k 0 delay]
    simp
  constructor
  · simpa [retryInternalSync, hc] using main SleepPrimitive.blocking
  · simpa [retryInternalAsync, hc] using main SleepPrimitive.blocking

theorem exhaustion_invokes_N_and_raises_last_witness :
    ((retryInternalSync (fun n => (Except.error n : Except Nat Nat))
        (fun _ => true) ((3 : Nat) : Int) 1 none 2 (Jitter.fixed 0)
        (fun _ => 0) none 3).map (fun t => (t.invocations, t.outcome)) =
      some (3, Outcome.raised 2)) ∧
    ((retryInternalAsync (fun n => (Except.error n : Except Nat Nat))
        (fun _ => true) ((3 : Nat) : Int) 1 none 2 (Jitter.fixed 0)
        (fun _ => 0) none 3).map (fun t => (t.invocations, t.outcome)) =
      some (3, Outcome.raised 2)) :=
  exhaustion_invokes_N_and_raises_last (fun n => Except.error n)
    (fun _ => true) 1 none 2 (Jitter.fixed 0) (fun _ => 0) none
    (fun n => n) 3 (by omega) (fun _ => rfl) (fun _ => rfl) trivial

/-- C3: an exception the `except` clause does not match (a non-retryable
failure) on the first invocation propagates at once and unmodified from
both internals: one invocation, no logger call, no sleep. -/
theorem nonretryable_first_attempt (op : Nat → Except ε α)
    (retryable : ε → Bool) (tries : Int) (delay : Rat)
    (max_delay : Option Rat) (backoff : Rat) (jitter : Jitter)
    (samples : Nat → Rat) (logger : Option (Nat → Option ε)) (fuel : Nat)
    (e : ε) (h0 : tries ≠ 0) (hop : op 0 = Except.error e)
    (hret : retryable e = false) :
    retryInternalSync op retryable tries delay max_delay backoff jitter
      samples logger (fuel + 1) = some ⟨1, [], [], Outcome.raised e⟩ ∧
    retryInternalAsync op retryable tries delay max_delay backoff jitter
      samples logger (fuel + 1) = some ⟨1, [], [], Outcome.raised e⟩ :=
  ⟨retryLoop_fatal op retryable max_delay backoff jitter samples logger
      SleepPrimitive.blocking fuel 0 tries delay e h0 hop hret,
    retryLoop_fatal op retryable max_delay backoff jitter samples logger
      SleepPrimitive.blocking fuel 0 tries delay e h0 hop hret⟩

theorem nonretryable_first_attempt_witness :
    retryInternalSync (fun _ => (Except.error 7 : Except Nat Nat))
      (fun _ => false) 5 2 none 1 (Jitter.fixed 0) (fun _ => 0)
      (some fun _ => none) 1 = some ⟨1, [], [], Outcome.raised 7⟩ ∧
    retryInternalAsync (fun _ => (Except.error 7 : Except Nat Nat))
      (fun _ => false) 5 2 none 1 (Jitter.fixed 0) (fun _ => 0)
      (some fun _ => none) 1 = some ⟨1, [], [], Outcome.raised 7⟩ :=
  nonretryable_first_attempt (fun _ => Except.error 7) (fun _ => false) 5 2
    none 1 (Jitter.fixed 0) (fun _ => 0) (some fun _ => none) 0 7
    (by decide) rfl rfl

/-- C9: with `tries = 0`, `while _tries:` is never entered: both internals
return `None` with zero invocations, zero logger calls, zero sleeps, and
no exception. -/
theorem tries_zero_returns_none (op : Nat → Except ε α)
    (retryable : ε → Bool) (delay : Rat) (max_delay : Option Rat)
    (backoff : Rat) (jitter : Jitter) (samples : Nat → Rat)
    (logger : Option (Nat → Option ε)) (fuel : Nat) :
    retryInternalSync op retryable 0 delay max_delay backoff jitter samples
      logger (fuel + 1) = some ⟨0, [], [], Outcome.returnedNone⟩ ∧
    retryInternalAsync op retryable 0 delay max_delay backoff jitter samples
      logger (fuel + 1) = some ⟨0, [], [], Outcome.returnedNone⟩ :=
  ⟨retryLoop_zero op retryable max_delay backoff jitter samples logger
      SleepPrimitive.blocking fuel 0 delay,
    retryLoop_zero op retryable max_delay backoff jitter samples logger
      SleepPrimitive.blocking fuel 0 delay⟩

/-- C4: with the unbounded sentinel `tries = -1`, an operation that raises
caught exceptions on its first `k - 1` invocations and returns a value on
the `k`-th terminates: the loop returns the success value after exactly
`k` invocations (logger not raising). -/
theorem unbounded_retries_until_success (op : Nat → Except ε α)
    (retryable : ε → Bool) (delay : Rat) (max_delay : Option Rat)
    (backoff : Rat) (jitter : Jitter) (samples : Nat → Rat)
    (logger : Option (Nat → Option ε)) (errs : Nat → ε) (k : Nat) (v : α)
    (hk : 1 ≤ k)
    (hop : ∀ i, i < k - 1 → op i = Except.error (errs i))
    (hret : ∀ i, i < k - 1 → retryable (errs i) = true)
    (hsucc : op (k - 1) = Except.ok v)
    (hlg : loggerOk logger) :
    (retryInternalSync op retryable (-1) delay max_delay backoff jitter
        samples logger k).map (fun t => (t.invocations, t.outcome)) =
      some (k, Outcome.returned v) := by
  obtain ⟨j, rfl⟩ : ∃ j, k = j + 1 := ⟨k - 1, by omega⟩
  obtain ⟨t, ht, hinv, hout⟩ := retryLoop_neg_eventually_succeeds op
    retryable max_delay backoff jitter samples logger
    SleepPrimitive.blocking errs v hlg j 0 (-1) delay (by norm_num)
    (fun i hi => by simpa using hop i (by omega))
    (fun i hi => by simpa using hret i (by omega))
    (by simpa using hsucc)
  simp [retryInternalSync, ht, hinv, hout]

theorem unbounded_retries_until_success_witness :
    (retryInternalSync (fun n => if n < 3 then Except.error n else .ok 42)
        (fun _ => true) (-1) 1 none 2 (Jitter.fixed 0) (fun _ => 0) none
        4).map (fun t => (t.invocations, t.outcome)) =
      some (4, Outcome.returned 42) :=
  unbounded_retries_until_success
    (fun n => if n < 3 then Except.error n else .ok 42) (fun _ => true) 1
    none 2 (Jitter.fixed 0) (fun _ => 0) none (fun n => n) 4 42 (by omega)
    (fun i hi => by
      simp only [show (4 : Nat) - 1 = 3 from rfl] at hi
      simp [hi])
    (fun _ _ => rfl) rfl trivial

/-- C5: at any loop state, on a caught (retryable) failure after which
attempts remain and with a logger set, the logger is invoked exactly once
with that failure and the pre-update value of `_delay` (the delay that is
about to be waited); and if the logger call itself raises, that exception
propagates immediately, aborting the loop with no sleep and no further
invocation. -/
theorem observer_called_once_with_pre_update_delay (op : Nat → Except ε α)
    (retryable : ε → Bool) (max_delay : Option Rat) (backoff : Rat)
    (jitter : Jitter) (samples : Nat → Rat) (lg : Nat → Option ε)
    (prim : SleepPrimitive) (fuel n : Nat) (tries : Int) (delay : Rat)
    (e : ε) (h0 : tries ≠ 0) (hop : op n = Except.error e)
    (hret : retryable e = true) (hrem : tries - 1 ≠ 0) :
    (∀ le, lg n = some le →
      retryLoop op retryable max_delay backoff jitter samples (some lg)
        prim (fuel + 1) n tries delay =
        some ⟨1, [(e, delay)], [], Outcome.raised le⟩) ∧
    (lg n = none →
      retryLoop op retryable max_delay backoff jitter samples (some lg)
        prim (fuel + 1) n tries delay =
        (retryLoop op retryable max_delay backoff jitter samples (some lg)
            prim fuel (n + 1) (tries - 1)
            (updateDelay delay backoff jitter samples n max_delay)).map
          fun t =>
            ⟨t.invocations + 1, (e, delay) :: t.logCalls,
              (prim, delay) :: t.sleeps, t.outcome⟩) := by
  constructor
  · intro le hle
    exact retryLoop_logger_raises op retryable max_delay backoff jitter
      samples lg prim fuel n tries delay e le h0 hop hret hrem hle
  · intro hnone
    exact retryLoop_retry_step op retryable max_delay backoff jitter
      samples (some lg) prim fuel n tries delay e h0 hop hret hrem
      (by
        intro lg' h
        cases h
        exact hnone)

theorem observer_called_once_with_pre_update_delay_witness :
    (∀ le, (fun _ : Nat => some 9) 0 = some le →
      retryLoop (fun _ => (Except.error 5 : Except Nat Nat))
        (fun _ => true) none 1 (Jitter.fixed 0) (fun _ => 0)
        (some fun _ : Nat => some 9) SleepPrimitive.blocking 1 0 3 2 =
        some ⟨1, [(5, 2)], [], Outcome.raised le⟩) ∧
    ((fun _ : Nat => some 9) 0 = none →
      retryLoop (fun _ => (Except.error 5 : Except Nat Nat))
        (fun _ => true) none 1 (Jitter.fixed 0) (fun _ => 0)
        (some fun _ : Nat => some 9) SleepPrimitive.blocking 1 0 3 2 =
        (retryLoop (fun _ => (Except.error 5 : Except Nat Nat))
            (fun _ => true) none 1 (Jitter.fixed 0) (fun _ => 0)
            (some fun _ : Nat => some 9) SleepPrimitive.blocking 0 1 (3 - 1)
            (updateDelay 2 1 (Jitter.fixed 0) (fun _ => 0) 0 none)).map
          fun t =>
            ⟨t.invocations + 1, (5, 2) :: t.logCalls,
              (SleepPrimitive.blocking, 2) :: t.sleeps, t.outcome⟩) :=
  observer_called_once_with_pre_update_delay
    (fun _ => Except.error 5) (fun _ => true) none 1 (Jitter.fixed 0)
    (fun _ => 0) (fun _ => some 9) SleepPrimitive.blocking 0 0 3 2 5
    (by decide) rfl rfl (by decide)

/-- C8 evidence: the wait of `__retry_internal_async` is the blocking
`time.sleep` (api.py line 101), not a suspending awaited sleep: a concrete
async run with one retryable failure records a `blocking` wait. -/
theorem async_wait_is_blocking_sleep :
    retryInternalAsync (fun _ => (Except.error 0 : Except Nat Nat))
      (fun _ => true) 2 1 none 1 (Jitter.fixed 0) (fun _ => 0) none 2 =
      some ⟨2, [], [(SleepPrimitive.blocking, 1)], Outcome.raised 0⟩ := by
  decide

/-- C10: with `max_delay` set below the initial delay and the second
attempt succeeding after a first retryable failure, the single recorded
wait equals the uncapped initial delay: the `min(_delay, max_delay)` clamp
runs only in the post-sleep update, never on the initial delay. -/
theorem first_wait_not_capped (op : Nat → Except ε α)
    (retryable : ε → Bool) (tries : Int) (delay m : Rat) (backoff : Rat)
    (jitter : Jitter) (samples : Nat → Rat)
    (logger : Option (Nat → Option ε)) (fuel : Nat) (e : ε) (v : α)
    (h0 : tries ≠ 0) (hrem : tries - 1 ≠ 0)
    (hop0 : op 0 = Except.error e) (hret : retryable e = true)
    (hop1 : op 1 = Except.ok v) (hlg : loggerOk logger) (hm : m < delay) :
    (retryInternalSync op retryable tries delay (some m) backoff jitter
        samples logger (fuel + 2)).map (fun t => t.sleeps) =
      some [(SleepPrimitive.blocking, delay)] ∧
    (retryInternalAsync op retryable tries delay (some m) backoff jitter
        samples logger (fuel + 2)).map (fun t => t.sleeps) =
      some [(SleepPrimitive.blocking, delay)] := by
  have h1 := retryLoop_retry_step op retryable (some m) backoff jitter
    samples logger SleepPrimitive.blocking (fuel + 1) 0 tries delay e h0
    hop0 hret hrem (loggerOk_at hlg 0)
  have h2 := retryLoop_success op retryable (some m) backoff jitter samples
    logger SleepPrimitive.blocking fuel 1 (tries - 1)
    (updateDelay delay backoff jitter samples 0 (some m)) v hrem hop1
  constructor
  · show (retryLoop op retryable (some m) backoff jitter samples logger
        SleepPrimitive.blocking (fuel + 1 + 1) 0 tries delay).map
        (fun t => t.sleeps) = some [(SleepPrimitive.blocking, delay)]
    rw [h1, h2]
    rfl
  · show (retryLoop op retryable (some m) backoff jitter samples logger
        SleepPrimitive.blocking (fuel + 1 + 1) 0 tries delay).map
        (fun t => t.sleeps) = some [(SleepPrimitive.blocking, delay)]
    rw [h1, h2]
    rfl

theorem first_wait_not_capped_witness :
    (retryInternalSync
        (fun n => if n = 0 then (Except.error 3 : Except Nat Nat)
          else .ok 1)
        (fun _ => true) 5 7 (some 2) 1 (Jitter.fixed 0) (fun _ => 0) none
        2).map (fun t => t.sleeps) =
      some [(SleepPrimitive.blocking, 7)] ∧
    (retryInternalAsync
        (fun n => if n = 0 then (Except.error 3 : Except Nat Nat)
          else .ok 1)
        (fun _ => true) 5 7 (some 2) 1 (Jitter.fixed 0) (fun _ => 0) none
        2).map (fun t => t.sleeps) =
      some [(SleepPrimitive.blocking, 7)] :=
  first_wait_not_capped
    (fun n => if n = 0 then Except.error 3 else .ok 1) (fun _ => true) 5 7
    2 1 (Jitter.fixed 0) (fun _ => 0) none 0 3 1 (by decide) (by decide)
    rfl rfl rfl trivial (by norm_num)

/-- C6: with jitter `0`, no `max_delay`, finite `tries = N ≥ 1`, initial
delay `d` and backoff `b`, an always-failing (caught) operation accumulates
a total wait of `∑ i < N - 1, d * b ^ i`. -/
theorem total_wait_geometric (op : Nat → Except ε α)
    (retryable : ε → Bool) (delay backoff : Rat) (samples : Nat → Rat)
    (logger : Option (Nat → Option ε)) (errs : Nat → ε) (N : Nat)
    (hN : 1 ≤ N)
    (hop : ∀ n, op n = Except.error (errs n))
    (hret : ∀ n, retryable (errs n) = true)
    (hlg : loggerOk logger) :
    (retryInternalSync op retryable (N : Int) delay none backoff
        (Jitter.fixed 0) samples logger N).map
      (fun t => (t.sleeps.map Prod.snd).sum) =
      some (∑ i ∈ Finset.range (N - 1), delay * backoff ^ i) := by
  obtain ⟨k, rfl⟩ : ∃ k, N = k + 1 := ⟨N - 1, by omega⟩
  have hc : ((k + 1 : Nat) : Int) = (k : Int) + 1 := by
    push_cast
    ring
  have hrun := retryLoop_always_fail op retryable none backoff
    (Jitter.fixed 0) samples logger SleepPrimitive.blocking errs hop hret
    hlg k 0 delay
  simp only [retryInternalSync, hc]
  rw [hrun, Option.map_some']
  congr 1
  rw [List.map_map]
  have hmap : ((List.range k).map (Prod.snd ∘ fun i =>
      (SleepPrimitive.blocking,
        delayIter backoff (Jitter.fixed 0) samples none 0 delay i))) =
      (List.range k).map fun i => delay * backoff ^ i := by
    apply List.map_congr_left
    intro i _
    simp [Function.comp, delayIter_geometric]
  rw [hmap, list_range_map_sum]
  simp

theorem total_wait_geometric_witness :
    ((retryInternalSync (fun _ => (Except.error 0 : Except Nat Nat))
        (fun _ => true) ((5 : Nat) : Int) 1 none 2 (Jitter.fixed 0)
        (fun _ => 0) none 5).map
      (fun t => (t.sleeps.map Prod.snd).sum) =
      some (∑ i ∈ Finset.range (5 - 1), 1 * 2 ^ i)) ∧
    (∑ i ∈ Finset.range (5 - 1), (1 : Rat) * 2 ^ i) = 15 :=
  ⟨total_wait_geometric (fun _ => Except.error 0) (fun _ => true) 1 2
      (fun _ => 0) none (fun _ => 0) 5 (by omega) (fun _ => rfl)
      (fun _ => rfl) trivial,
    by norm_num [Finset.sum_range_succ]⟩

/-- C7 as stated fails: with `max_delay = delay = 1`, `backoff = 1/2`,
`tries = 3`, no jitter and an always-failing caught operation, the
accumulated wait is `1 + 1/2 = 3/2`, not `delay * (tries - 1) = 2` — with
a backoff below `1` the delay shrinks under the cap instead of sticking at
it. -/
theorem total_wait_capped_cex :
    ((retryInternalSync (fun _ => (Except.error 0 : Except Nat Nat))
        (fun _ => true) 3 1 (some 1) (1 / 2) (Jitter.fixed 0) (fun _ => 0)
        none 3).map (fun t => (t.sleeps.map Prod.snd).sum) =
      some (3 / 2)) ∧
    ((3 : Rat) / 2) ≠ 1 * (3 - 1) := by
  constructor
  · have s1 := retryLoop_retry_step
      (fun _ => (Except.error 0 : Except Nat Nat)) (fun _ => true) (some 1)
      (1 / 2) (Jitter.fixed 0) (fun _ => 0) none SleepPrimitive.blocking 2
      0 3 1 0 (by norm_num) rfl rfl (by norm_num)
      (by
        intro lg h
        cases h)
    have s2 := retryLoop_retry_step
      (fun _ => (Except.error 0 : Except Nat Nat)) (fun _ => true) (some 1)
      (1 / 2) (Jitter.fixed 0) (fun _ => 0) none SleepPrimitive.blocking 1
      1 (3 - 1)
      (updateDelay 1 (1 / 2) (Jitter.fixed 0) (fun _ => 0) 0 (some 1)) 0
      (by norm_num) rfl rfl (by norm_num)
      (by
        intro lg h
        cases h)
    have s3 := retryLoop_exhaust
      (fun _ => (Except.error 0 : Except Nat Nat)) (fun _ => true) (some 1)
      (1 / 2) (Jitter.fixed 0) (fun _ => 0) none SleepPrimitive.blocking 0
      2 (3 - 1 - 1)
      (updateDelay
        (updateDelay 1 (1 / 2) (Jitter.fixed 0) (fun _ => 0) 0 (some 1))
        (1 / 2) (Jitter.fixed 0) (fun _ => 0) 1 (some 1)) 0 (by norm_num)
      rfl rfl (by norm_num)
    show (retryLoop (fun _ => (Except.error 0 : Except Nat Nat))
        (fun _ => true) (some 1) (1 / 2) (Jitter.fixed 0) (fun _ => 0) none
        SleepPrimitive.blocking (2 + 1) 0 3 1).map
      (fun t => (t.sleeps.map Prod.snd).sum) = some (3 / 2)
    rw [s1, s2, s3]
    simp only [Option.map_some', logCons, List.map_cons, List.map_nil,
      List.sum_cons, List.sum_nil]
    norm_num [updateDelay, jitterValue, min_def]
  · norm_num

/-- C7 amended: with `max_delay` equal to a non-negative initial delay
`d`, no jitter, finite `tries = N ≥ 1`, and a backoff multiplier `≥ 1`,
every per-attempt wait of an always-failing run equals `d` (the update is
clamped back to the cap each time), so the accumulated wait is
`d * (N - 1)`. -/
theorem total_wait_capped_at_initial (op : Nat → Except ε α)
    (retryable : ε → Bool) (d backoff : Rat) (samples : Nat → Rat)
    (logger : Option (Nat → Option ε)) (errs : Nat → ε) (N : Nat)
    (hN : 1 ≤ N) (hd : 0 ≤ d) (hb : 1 ≤ backoff)
    (hop : ∀ n, op n = Except.error (errs n))
    (hret : ∀ n, retryable (errs n) = true)
    (hlg : loggerOk logger) :
    (retryInternalSync op retryable (N : Int) d (some d) backoff
        (Jitter.fixed 0) samples logger N).map
      (fun t => (t.sleeps.map Prod.snd).sum) =
      some (d * ((N : Rat) - 1)) := by
  obtain ⟨k, rfl⟩ : ∃ k, N = k + 1 := ⟨N - 1, by omega⟩
  have hc : ((k + 1 : Nat) : Int) = (k : Int) + 1 := by
    push_cast
    ring
  have hrun := retryLoop_always_fail op retryable (some d) backoff
    (Jitter.fixed 0) samples logger SleepPrimitive.blocking errs hop hret
    hlg k 0 d
  simp only [retryInternalSync, hc]
  rw [hrun, Option.map_some']
  congr 1
  rw [List.map_map]
  have hmap : ((List.range k).map (Prod.snd ∘ fun i =>
      (SleepPrimitive.blocking,
        delayIter backoff (Jitter.fixed 0) samples (some d) 0 d i))) =
      (List.range k).map fun _ => d := by
    apply List.map_congr_left
    intro i _
    simp [Function.comp, delayIter_capped backoff samples d hd hb]
  rw [hmap, list_range_map_sum]
  rw [Finset.sum_const, nsmul_eq_mul, Finset.card_range]
  push_cast
  ring

theorem total_wait_capped_at_initial_witness :
    (retryInternalSync (fun _ => (Except.error 0 : Except Nat Nat))
        (fun _ => true) ((5 : Nat) : Int) 1 (some 1) 2 (Jitter.fixed 0)
        (fun _ => 0) none 5).map
      (fun t => (t.sleeps.map Prod.snd).sum) =
      some (1 * (((5 : Nat) : Rat) - 1)) :=
  total_wait_capped_at_initial (fun _ => Except.error 0) (fun _ => true) 1
    2 (fun _ => 0) none (fun _ => 0) 5 (by omega) (by norm_num)
    (by norm_num) (fun _ => rfl) (fun _ => rfl) trivial

/-- C2 as stated fails: the library performs no parameter validation at
all.  A call combining all three invalid parameters — `tries = 0`, a
negative `delay`, and an inverted jitter range `(3, 1)` — raises nothing
at construction or at execute time; it returns `None` after zero
invocations. -/
theorem no_config_error_cex :
    retry_call_sync (fun _ => (Except.ok 0 : Except Nat Nat))
      (fun _ => true) 0 (-1) none 1 (Jitter.range 3 1) (fun _ => 2) none
      1 = some ⟨0, [], [], Outcome.returnedNone⟩ := by
  decide

/-- C2 amended: no configuration is rejected.  `retry`, `retry_call_sync`
and `retry_call_async` delegate to the retry internals unchanged even for
invalid parameters (`tries = 0`, negative delay, or a jitter range with
`min > max`), raising no configuration error at construction or execute
time; in particular `tries = 0` makes execution return `None` with zero
invocations, zero logger calls and zero sleeps. -/
theorem invalid_config_not_rejected (op : Nat → Except ε α)
    (retryable : ε → Bool) (tries : Int) (delay : Rat)
    (max_delay : Option Rat) (backoff : Rat) (jitter : Jitter)
    (samples : Nat → Rat) (logger : Option (Nat → Option ε)) (fuel : Nat)
    (h : tries = 0 ∨ delay < 0 ∨ invertedJitter jitter) :
    retry_call_sync op retryable tries delay max_delay backoff jitter
        samples logger fuel =
      retryInternalSync op retryable tries delay max_delay backoff jitter
        samples logger fuel ∧
    retry_call_async op retryable tries delay max_delay backoff jitter
        samples logger fuel =
      retryInternalAsync op retryable tries delay max_delay backoff jitter
        samples logger fuel ∧
    retry false retryable tries delay max_delay backoff jitter samples
        logger op fuel =
      retryInternalSync op retryable tries delay max_delay backoff jitter
        samples logger fuel ∧
    retry true retryable tries delay max_delay backoff jitter samples
        logger op fuel =
      retryInternalAsync op retryable tries delay max_delay backoff jitter
        samples logger fuel ∧
    (tries = 0 → ∀ g,
      retry_call_sync op retryable tries delay max_delay backoff jitter
        samples logger (g + 1) = some ⟨0, [], [], Outcome.returnedNone⟩) := by
  refine ⟨rfl, rfl, rfl, rfl, ?_⟩
  intro h0 g
  subst h0
  exact retryLoop_zero op retryable max_delay backoff jitter samples logger
    SleepPrimitive.blocking g 0 delay

theorem invalid_config_not_rejected_witness :
    (retry_call_sync (fun _ => (Except.ok 0 : Except Nat Nat))
        (fun _ => true) 0 (-1) none 1 (Jitter.range 3 1) (fun _ => 2) none
        1 =
      retryInternalSync (fun _ => (Except.ok 0 : Except Nat Nat))
        (fun _ => true) 0 (-1) none 1 (Jitter.range 3 1) (fun _ => 2) none
        1) ∧
    (retry_call_async (fun _ => (Except.ok 0 : Except Nat Nat))
        (fun _ => true) 0 (-1) none 1 (Jitter.range 3 1) (fun _ => 2) none
        1 =
      retryInternalAsync (fun _ => (Except.ok 0 : Except Nat Nat))
        (fun _ => true) 0 (-1) none 1 (Jitter.range 3 1) (fun _ => 2) none
        1) ∧
    (retry false (fun _ => true) 0 (-1) none 1 (Jitter.range 3 1)
        (fun _ => 2) none (fun _ => (Except.ok 0 : Except Nat Nat)) 1 =
      retryInternalSync (fun _ => (Except.ok 0 : Except Nat Nat))
        (fun _ => true) 0 (-1) none 1 (Jitter.range 3 1) (fun _ => 2) none
        1) ∧
    (retry true (fun _ => true) 0 (-1) none 1 (Jitter.range 3 1)
        (fun _ => 2) none (fun _ => (Except.ok 0 : Except Nat Nat)) 1 =
      retryInternalAsync (fun _ => (Except.ok 0 : Except Nat Nat))
        (fun _ => true) 0 (-1) none 1 (Jitter.range 3 1) (fun _ => 2) none
        1) ∧
    ((0 : Int) = 0 → ∀ g,
      retry_call_sync (fun _ => (Except.ok 0 : Except Nat Nat))
        (fun _ => true) 0 (-1) none 1 (Jitter.range 3 1) (fun _ => 2) none
        (g + 1) = some ⟨0, [], [], Outcome.returnedNone⟩) :=
  invalid_config_not_rejected (fun _ => Except.ok 0) (fun _ => true) 0
    (-1) none 1 (Jitter.range 3 1) (fun _ => 2) none 1
    (Or.inr (Or.inl (by norm_num)))

end RetryAsync
